import Mathlib

/-
Verification of the payment-text extraction and aggregation engine of
qr_summary_bot.py: the regex-based parser (AMT_PATTERN, DT_PATTERN1,
DT_PATTERN2 together with datetime.strptime), the sqlite-backed record
store, the per-currency aggregation queries, and the command handlers.

The Python regexes are embedded as hand-rolled scanners over `List Char`
that reproduce Python `re.search` semantics (leftmost match, greedy
quantifiers with backtracking) for these three concrete patterns; where a
greedy quantifier needs no backtracking because the follow-set is disjoint
from the quantified class, the scanner commits to the maximal run and a
comment records the argument.  Python `\d`, `\s`, `[A-Za-z]` are modelled
at their ASCII meaning.  Amounts (Python floats produced by `float` on a
decimal numeral) are modelled as exact rationals.  The sqlite table is
modelled as a list of rows; `GROUP BY currency` is modelled as one output
row per distinct currency (row order is not modelled - no claim depends
on it).
-/

namespace QRBot

/-! ### Character classes (ASCII fragment of the Python `re` classes) -/

/-- Python `\s` on ASCII text: space, tab, newline, CR, vertical tab, form feed. -/
def isWsChar (c : Char) : Bool :=
  c = ' ' || c = '\t' || c = '\n' || c = '\r' || c = '\x0b' || c = '\x0c'

/-- Python `\d` on ASCII text. -/
def isDigitCh (c : Char) : Bool :=
  '0' ≤ c && c ≤ '9'

/-- The class `[\d,]` of AMT_PATTERN's numeral group. -/
def isAmtNumChar (c : Char) : Bool :=
  isDigitCh c || c = ','

/-- The class `[A-Za-z]` of the month abbreviation in both date patterns. -/
def isAlphaCh (c : Char) : Bool :=
  ('A' ≤ c && c ≤ 'Z') || ('a' ≤ c && c ≤ 'z')

def digitVal (c : Char) : Nat := c.toNat - 48

def natOfDigits (cs : List Char) : Nat :=
  cs.foldl (fun acc c => acc * 10 + digitVal c) 0

/-! ### Primitive scanners -/

/-- Consume an exact literal; return the rest of the input on success. -/
def dropLit : List Char → List Char → Option (List Char)
  | [], cs => some cs
  | _ :: _, [] => none
  | l :: ls, c :: cs => if c = l then dropLit ls cs else none

def expectChar (c : Char) : List Char → Option (List Char)
  | d :: rest => if d = c then some rest else none
  | [] => none

/-- Maximal non-empty run of characters satisfying `p` (a greedy `+`). -/
def takeRun1 (p : Char → Bool) (cs : List Char) : Option (List Char × List Char) :=
  let tk := cs.takeWhile p
  if tk.isEmpty then none else some (tk, cs.dropWhile p)

/-- Exactly `n` characters satisfying `p` (a `{n}` counted repetition). -/
def takeCount : Nat → (Char → Bool) → List Char → Option (List Char × List Char)
  | 0, _, cs => some ([], cs)
  | _ + 1, _, [] => none
  | n + 1, p, c :: rest =>
    if p c then (takeCount n p rest).map (fun pr => (c :: pr.1, pr.2)) else none

/-! ### AMT_PATTERN = `Received\s+([\d,]+(?:\.\d+)?)\s+(USD|KHR)` -/

/-- The optional fraction `(?:\.\d+)?` after the integer-and-comma run.
Committing to the fraction when `.` + digits is present is equivalent to
Python's backtracking: if the fraction is dropped, the following `\s+`
must match at the `.` and fails, and shortening the preceding `[\d,]+`
run leaves a digit or comma next, on which both `\.` and `\s` fail. -/
def takeFrac : List Char → List Char × List Char
  | '.' :: rest =>
    match takeRun1 isDigitCh rest with
    | some (ds, rest2) => ('.' :: ds, rest2)
    | none => ([], '.' :: rest)
  | cs => ([], cs)

/-- The alternation `(USD|KHR)`. -/
def matchCurrency (cs : List Char) : Option (String × List Char) :=
  match dropLit ['U', 'S', 'D'] cs with
  | some rest => some ("USD", rest)
  | none =>
    match dropLit ['K', 'H', 'R'] cs with
    | some rest => some ("KHR", rest)
    | none => none

/-- Attempt AMT_PATTERN at the head of the input, returning the two
captured groups (numeral, currency code).  The `\s+` runs are committed
maximally: their follow-sets (`[\d,]` resp. `U`/`K`) contain no
whitespace, so backtracking them can never help. -/
def matchAmtAt (cs : List Char) : Option (String × String) :=
  match dropLit ['R', 'e', 'c', 'e', 'i', 'v', 'e', 'd'] cs with
  | none => none
  | some cs1 =>
    match takeRun1 isWsChar cs1 with
    | none => none
    | some (_, cs2) =>
      match takeRun1 isAmtNumChar cs2 with
      | none => none
      | some (num, cs3) =>
        match takeFrac cs3 with
        | (frac, cs4) =>
          match takeRun1 isWsChar cs4 with
          | none => none
          | some (_, cs5) =>
            match matchCurrency cs5 with
            | none => none
            | some (cur, _) => some (String.mk (num ++ frac), cur)

/-! ### The shared tail `(\d{2}-[A-Za-z]{3}-\d{4})\s+(\d{1,2}:\d{2}[AP]M)` -/

/-- The greedy `\d{1,2}` of the hour, which must be followed by `:`.
Python first tries two digits and falls back to one; the fallback can
only succeed when the second character is the `:` itself. -/
def takeHourDigits : List Char → Option (List Char × List Char)
  | a :: b :: rest =>
    if isDigitCh a && isDigitCh b &&
        (match rest with | ':' :: _ => true | _ => false) then
      some ([a, b], rest)
    else if isDigitCh a && b = ':' then
      some ([a], b :: rest)
    else none
  | _ => none

/-- The part of both date patterns after the leading delimiter: captures
the date group and the time group. -/
def matchDTTail (cs : List Char) : Option (String × String) :=
  match takeCount 2 isDigitCh cs with
  | none => none
  | some (d2, cs1) =>
    match expectChar '-' cs1 with
    | none => none
    | some cs2 =>
      match takeCount 3 isAlphaCh cs2 with
      | none => none
      | some (mon, cs3) =>
        match expectChar '-' cs3 with
        | none => none
        | some cs4 =>
          match takeCount 4 isDigitCh cs4 with
          | none => none
          | some (y4, cs5) =>
            match takeRun1 isWsChar cs5 with
            | none => none
            | some (_, cs6) =>
              match takeHourDigits cs6 with
              | none => none
              | some (hh, cs7) =>
                match expectChar ':' cs7 with
                | none => none
                | some cs8 =>
                  match takeCount 2 isDigitCh cs8 with
                  | none => none
                  | some (mm, cs9) =>
                    match cs9 with
                    | ap :: 'M' :: _ =>
                      if ap = 'A' || ap = 'P' then
                        some (String.mk (d2 ++ '-' :: mon ++ '-' :: y4),
                              String.mk (hh ++ ':' :: mm ++ [ap, 'M']))
                      else none
                    | _ => none

/-- DT_PATTERN1 = `on\s+(\d{2}-[A-Za-z]{3}-\d{4})\s+(\d{1,2}:\d{2}[AP]M)`
attempted at the head of the input. -/
def matchDT1At (cs : List Char) : Option (String × String) :=
  match dropLit ['o', 'n'] cs with
  | none => none
  | some cs1 =>
    match takeRun1 isWsChar cs1 with
    | none => none
    | some (_, cs2) => matchDTTail cs2

/-- DT_PATTERN2 = `,\s*(\d{2}-[A-Za-z]{3}-\d{4})\s+(\d{1,2}:\d{2}[AP]M)`
attempted at the head of the input.  `\s*` is committed maximally: the
follow-set `\d` contains no whitespace. -/
def matchDT2At (cs : List Char) : Option (String × String) :=
  match expectChar ',' cs with
  | none => none
  | some cs1 => matchDTTail (cs1.dropWhile isWsChar)

/-- Python `re.search` semantics: try the pattern at every position from the
left, returning the first success.  None of the three patterns can match
the empty string, so the end-of-input position is irrelevant. -/
def searchWith (m : List Char → Option α) : List Char → Option α
  | [] => none
  | c :: rest =>
    match m (c :: rest) with
    | some r => some r
    | none => searchWith m rest

def searchAmt (cs : List Char) : Option (String × String) := searchWith matchAmtAt cs

def searchDT1 (cs : List Char) : Option (String × String) := searchWith matchDT1At cs

def searchDT2 (cs : List Char) : Option (String × String) := searchWith matchDT2At cs

/-- The Python expression `DT_PATTERN1.search(text) or DT_PATTERN2.search(text)`: the comma
pattern is consulted only when the `on`-keyword pattern finds nothing. -/
def searchDT (cs : List Char) : Option (String × String) :=
  match searchDT1 cs with
  | some r => some r
  | none => searchDT2 cs

/-! ### `datetime.strptime` for the two formats used by the program -/

/-- A naive calendar date-time as produced by `datetime.strptime`
(seconds are always zero for the formats used here). -/
structure DateTime where
  year : Nat
  month : Nat
  day : Nat
  hour : Nat
  minute : Nat
deriving DecidableEq

/-- A naive calendar date (Python `datetime.date`). -/
structure Date where
  year : Nat
  month : Nat
  day : Nat
deriving DecidableEq

/-- The `%b` directive: a case-insensitive three-letter month
abbreviation (C locale). -/
def monthNum3 (a b c : Char) : Option Nat :=
  let s := String.mk [a.toLower, b.toLower, c.toLower]
  if s = "jan" then some 1 else if s = "feb" then some 2
  else if s = "mar" then some 3 else if s = "apr" then some 4
  else if s = "may" then some 5 else if s = "jun" then some 6
  else if s = "jul" then some 7 else if s = "aug" then some 8
  else if s = "sep" then some 9 else if s = "oct" then some 10
  else if s = "nov" then some 11 else if s = "dec" then some 12
  else none

/-- The `%d` directive, `(3[01]|[12]\d|0[1-9]|[1-9])`: two digits valued
1..31, or a single digit 1..9 when no second digit follows.  A two-digit
value outside 1..31 cannot fall back to the one-digit branch, because the
next format element (a literal or end of data) never matches a digit. -/
def parseDayField : List Char → Option (Nat × List Char)
  | a :: b :: rest =>
    if isDigitCh a && isDigitCh b then
      let v := 10 * digitVal a + digitVal b
      if 1 ≤ v && v ≤ 31 then some (v, rest) else none
    else if isDigitCh a && a ≠ '0' then some (digitVal a, b :: rest)
    else none
  | [a] => if isDigitCh a && a ≠ '0' then some (digitVal a, []) else none
  | [] => none

/-- The `%I` and `%m` directives, `(1[0-2]|0[1-9]|[1-9])`: two digits
valued 1..12, or a single digit 1..9 when no second digit follows. -/
def parseNum12 : List Char → Option (Nat × List Char)
  | a :: b :: rest =>
    if isDigitCh a && isDigitCh b then
      let v := 10 * digitVal a + digitVal b
      if 1 ≤ v && v ≤ 12 then some (v, rest) else none
    else if isDigitCh a && a ≠ '0' then some (digitVal a, b :: rest)
    else none
  | [a] => if isDigitCh a && a ≠ '0' then some (digitVal a, []) else none
  | [] => none

/-- The `%M` directive, `([0-5]\d|\d)`: two digits valued 0..59, or a
single digit when no second digit follows.  A two-digit value above 59
cannot fall back to the one-digit branch, because the following `%p`
never matches at the leftover digit. -/
def parseMinuteField : List Char → Option (Nat × List Char)
  | a :: b :: rest =>
    if isDigitCh a && isDigitCh b then
      let v := 10 * digitVal a + digitVal b
      if v ≤ 59 then some (v, rest) else none
    else if isDigitCh a then some (digitVal a, b :: rest)
    else none
  | [a] => if isDigitCh a then some (digitVal a, []) else none
  | [] => none

/-- The `%Y` directive, `(\d\d\d\d)`: exactly four digits. -/
def parseYear4 (cs : List Char) : Option (Nat × List Char) :=
  match takeCount 4 isDigitCh cs with
  | some (ds, rest) => some (natOfDigits ds, rest)
  | none => none

/-- The `%p` directive, `(am|pm)` case-insensitive; returns `true` for PM. -/
def parseAmPm : List Char → Option (Bool × List Char)
  | a :: m :: rest =>
    if (a.toLower = 'a' || a.toLower = 'p') && m.toLower = 'm' then
      some (a.toLower = 'p', rest)
    else none
  | _ => none

def isLeapYear (y : Nat) : Bool :=
  y % 4 = 0 && (y % 100 ≠ 0 || y % 400 = 0)

def daysInMonth (y m : Nat) : Nat :=
  if m = 2 then (if isLeapYear y then 29 else 28)
  else if m = 4 || m = 6 || m = 9 || m = 11 then 30
  else 31

/-- Conversion from 12-hour to 24-hour clock as done by `_strptime`. -/
def hourTo24 (h : Nat) (pm : Bool) : Nat :=
  if pm then (if h = 12 then 12 else h + 12)
  else (if h = 12 then 0 else h)

/-- Embedding of `datetime.strptime(s, "%d-%b-%Y %I:%M%p")`: the whole string must be
consumed, and the resulting calendar data must form a valid `datetime`
(year 1..9999, day within the month).  Failure models the `ValueError`. -/
def strptimeDMY (s : String) : Option DateTime :=
  match parseDayField s.toList with
  | none => none
  | some (d, cs1) =>
    match expectChar '-' cs1 with
    | none => none
    | some cs2 =>
      match cs2 with
      | a :: b :: c :: cs3 =>
        match monthNum3 a b c with
        | none => none
        | some mo =>
          match expectChar '-' cs3 with
          | none => none
          | some cs4 =>
            match parseYear4 cs4 with
            | none => none
            | some (y, cs5) =>
              match takeRun1 isWsChar cs5 with
              | none => none
              | some (_, cs6) =>
                match parseNum12 cs6 with
                | none => none
                | some (h, cs7) =>
                  match expectChar ':' cs7 with
                  | none => none
                  | some cs8 =>
                    match parseMinuteField cs8 with
                    | none => none
                    | some (mi, cs9) =>
                      match parseAmPm cs9 with
                      | none => none
                      | some (pm, cs10) =>
                        if cs10 = [] && 1 ≤ y && d ≤ daysInMonth y mo then
                          some ⟨y, mo, d, hourTo24 h pm, mi⟩
                        else none
      | _ => none

/-- Embedding of `datetime.strptime(s, "%Y-%m-%d").date()`: used by the `/day`
handler on its argument.  Same conventions as `strptimeDMY`. -/
def pyStrptimeYMD (s : String) : Option Date :=
  match parseYear4 s.toList with
  | none => none
  | some (y, cs1) =>
    match expectChar '-' cs1 with
    | none => none
    | some cs2 =>
      match parseNum12 cs2 with
      | none => none
      | some (mo, cs3) =>
        match expectChar '-' cs3 with
        | none => none
        | some cs4 =>
          match parseDayField cs4 with
          | none => none
          | some (d, cs5) =>
            if cs5 = [] && 1 ≤ y && d ≤ daysInMonth y mo then
              some ⟨y, mo, d⟩
            else none

/-! ### Amount conversion: `float(amount_str.replace(",", ""))` -/

def stripCommas (s : String) : String :=
  String.mk (s.toList.filter (fun c => c ≠ ','))

/-- Python `float` on the comma-stripped numeral, as an exact rational.
Every string reachable from AMT_PATTERN's first group has, after comma
removal, the shape `digits* ('.' digits+)?`; `float` accepts every such
string except the empty one (all-comma numerals), where it raises
`ValueError`.  Other shapes are unreachable and map to `none` as well. -/
def ratOfAmountStr (s : String) : Option ℚ :=
  match s.toList with
  | [] => none
  | cs =>
    let ip := cs.takeWhile isDigitCh
    match cs.dropWhile isDigitCh with
    | [] => some (mkRat (natOfDigits ip) 1)
    | '.' :: fs =>
      if fs ≠ [] && fs.all isDigitCh then
        some (mkRat (natOfDigits ip * 10 ^ fs.length + natOfDigits fs) (10 ^ fs.length))
      else none
    | _ => none

/-! ### `parse_payment` -/

/-- The observable outcomes of `parse_payment`: a parsed record, the
rejection `None`, or an uncaught exception escaping the function (the
`ValueError` raised by `float("")` on an all-comma numeral, which the
code does not catch - only the `strptime` call is wrapped). -/
inductive ParseOutcome where
  | record (amount : ℚ) (currency : String) (paidAt : DateTime)
  | rejected
  | error
deriving DecidableEq

def parse_payment (text : String) : ParseOutcome :=
  match searchAmt text.toList with
  | none => .rejected
  | some (amountStr, currency) =>
    match ratOfAmountStr (stripCommas amountStr) with
    | none => .error
    | some amount =>
      match searchDT text.toList with
      | none => .rejected
      | some (dateStr, timeStr) =>
        match strptimeDMY (dateStr ++ " " ++ timeStr) with
        | none => .rejected
        | some dt => .record amount currency dt

/-! ### The record store (the sqlite `payments` table as a list of rows) -/

structure PaymentRow where
  chatId : Int
  msgId : Int
  amount : ℚ
  currency : String
  paidAt : DateTime
  rawText : String
deriving DecidableEq

def MAIN_CHAT_ID : Int := -4850657873

def ADMIN_IDS : List Int := [123456789]

/-- The helper `save_payment`: one INSERT appending a row. -/
def save_payment (chatId msgId : Int) (amount : ℚ) (currency : String)
    (paidAt : DateTime) (rawText : String) (db : List PaymentRow) : List PaymentRow :=
  db ++ [⟨chatId, msgId, amount, currency, paidAt, rawText⟩]

/-- The ingestion handler `payment_message`: the ingestion handler.  Messages from other chats
are discarded; a missing text is replaced by `""` (`msg.text or ""`); a
parsed record is saved, a rejection is skipped.  In the error outcome the
uncaught exception propagates before any INSERT, so the table is also
unchanged. -/
def payment_message (chatId msgId : Int) (text : Option String)
    (db : List PaymentRow) : List PaymentRow :=
  if chatId ≠ MAIN_CHAT_ID then db
  else
    let t := text.getD ("")
    match parse_payment t with
    | .record a c dt => save_payment chatId msgId a c dt t db
    | .rejected => db
    | .error => db

def dateOf (dt : DateTime) : Date := ⟨dt.year, dt.month, dt.day⟩

/-- The query `SELECT currency, COUNT(*), SUM(amount) ... GROUP BY currency` over
an already-selected subset: one row per distinct currency of the subset
(sqlite's output ordering is not modelled - no claim depends on it). -/
def aggregateRows (recs : List PaymentRow) : List (String × Nat × ℚ) :=
  ((recs.map (fun r => r.currency)).dedup).map (fun c =>
    (c, (recs.filter (fun r => r.currency = c)).length,
        ((recs.filter (fun r => r.currency = c)).map (fun r => r.amount)).sum))

/-- The `WHERE date(paid_at) = ?` selection: rows are stored with
`paid_at = dt.isoformat()` and compared against `day.isoformat()`, which
for the calendar types at hand is exactly equality of date components. -/
def selectByDate (day : Date) (db : List PaymentRow) : List PaymentRow :=
  db.filter (fun r => dateOf r.paidAt = day)

def summarize_by_date (day : Date) (db : List PaymentRow) : List (String × Nat × ℚ) :=
  aggregateRows (selectByDate day db)

def padZeros (w : Nat) (s : String) : String :=
  if s.length ≥ w then s
  else String.mk (List.replicate (w - s.length) '0') ++ s

/-- Python `f"{n:0wd}"`: zero-padded to total width `w`, sign included. -/
def pyFmtInt (w : Nat) (n : Int) : String :=
  if n ≥ 0 then padZeros w (toString n.toNat)
  else ("-") ++ padZeros (w - 1) (toString (-n).toNat)

/-- The expression `strftime('%Y-%m', paid_at)` on a stored ISO timestamp. -/
def isoYM (dt : DateTime) : String :=
  padZeros 4 (toString dt.year) ++ "-" ++ padZeros 2 (toString dt.month)

/-- Python `date.isoformat()`. -/
def isoDate (d : Date) : String :=
  padZeros 4 (toString d.year) ++ "-" ++ padZeros 2 (toString d.month)
    ++ "-" ++ padZeros 2 (toString d.day)

/-- The `WHERE strftime('%Y-%m', paid_at) = ?` selection with
`? = f"{year:04d}-{month:02d}"`. -/
def selectByMonth (year month : Int) (db : List PaymentRow) : List PaymentRow :=
  db.filter (fun r => isoYM r.paidAt = pyFmtInt 4 year ++ "-" ++ pyFmtInt 2 month)

def summarize_by_month (year month : Int) (db : List PaymentRow) : List (String × Nat × ℚ) :=
  aggregateRows (selectByMonth year month db)

/-- The handler `cmd_resetdb`: `DELETE FROM payments` when the invoking user exists
and is in ADMIN_IDS, otherwise the table is untouched. -/
def cmd_resetdb (userId : Option Int) (db : List PaymentRow) : List PaymentRow :=
  match userId with
  | none => db
  | some u => if u ∈ ADMIN_IDS then [] else db

/-! ### Query command handlers -/

/-- What a query handler sends to the summary chat.  The report text
rendering (thousands separators, two decimals) is abstracted: a report
carries the period label and the raw aggregation rows. -/
inductive QueryReply where
  | usage (msg : String)
  | noData (period : String)
  | report (period : String) (rows : List (String × Nat × ℚ))
deriving DecidableEq

/-- The handler `cmd_today`: always queries the current date.  The second component
records which date, if any, was passed to `summarize_by_date`. -/
def cmd_today (today : Date) (db : List PaymentRow) : QueryReply × Option Date :=
  let rows := summarize_by_date today db
  if rows.isEmpty then (.noData (isoDate today), some today)
  else (.report (isoDate today) rows, some today)

/-- The handler `cmd_day`: no argument is rejected with a usage message; an argument
failing `strptime(_, "%Y-%m-%d")` is rejected with a format message; in
both cases no query runs. -/
def cmd_day (args : List String) (db : List PaymentRow) : QueryReply × Option Date :=
  match args with
  | [] => (.usage ("Usage: /day YYYY-MM-DD"), none)
  | a :: _ =>
    match pyStrptimeYMD a with
    | none => (.usage ("Invalid date format. Use YYYY-MM-DD."), none)
    | some d =>
      let rows := summarize_by_date d db
      if rows.isEmpty then (.noData (isoDate d), some d)
      else (.report (isoDate d) rows, some d)

/-- Python `int()` digit body: digits with single underscores strictly
between digits. -/
def digitsTail : List Char → Bool
  | [] => true
  | ['_'] => false
  | '_' :: c :: rest => isDigitCh c && digitsTail rest
  | c :: rest => isDigitCh c && digitsTail rest

def digitsBody (cs : List Char) : Bool :=
  match cs with
  | [] => false
  | c :: rest => isDigitCh c && digitsTail rest

/-- Python `int(s)`: optional surrounding whitespace, optional sign,
non-empty digit body. -/
def pyInt (s : String) : Option Int :=
  let cs := ((s.toList.dropWhile isWsChar).reverse.dropWhile isWsChar).reverse
  match cs with
  | '+' :: rest =>
    if digitsBody rest then some (natOfDigits (rest.filter (fun c => c ≠ '_'))) else none
  | '-' :: rest =>
    if digitsBody rest then some (-(natOfDigits (rest.filter (fun c => c ≠ '_')) : Int)) else none
  | _ =>
    if digitsBody cs then some (natOfDigits (cs.filter (fun c => c ≠ '_'))) else none

/-- Python `s.split("-")` on the character list: splits at every dash,
keeping empty pieces (`"".split("-") == [""]`). -/
def splitOnDash : List Char → List (List Char)
  | [] => [[]]
  | '-' :: rest => [] :: splitOnDash rest
  | c :: rest =>
    match splitOnDash rest with
    | g :: gs => (c :: g) :: gs
    | [] => [[c]]

/-- The assignment `year, month = map(int, arg.split("-"))`: succeeds exactly when the
split yields two pieces and both parse as Python ints; any failure is the
caught `Exception`. -/
def pyParseYM (s : String) : Option (Int × Int) :=
  match splitOnDash s.toList with
  | [a, b] =>
    match pyInt (String.mk a), pyInt (String.mk b) with
    | some y, some m => some (y, m)
    | _, _ => none
  | _ => none

/-- The handler `cmd_month`: a missing argument defaults to the current year/month;
an argument failing the two-int parse is rejected with a usage message
and no query runs.  The second component records the (year, month)
passed to `summarize_by_month`, if any. -/
def cmd_month (args : List String) (today : Date) (db : List PaymentRow) :
    QueryReply × Option (Int × Int) :=
  match args with
  | [] =>
    let y : Int := today.year
    let m : Int := today.month
    let rows := summarize_by_month y m db
    let ym := pyFmtInt 4 y ++ "-" ++ pyFmtInt 2 m
    if rows.isEmpty then (.noData ym, some (y, m)) else (.report ym rows, some (y, m))
  | a :: _ =>
    match pyParseYM a with
    | none => (.usage ("Usage: /month or /month YYYY-MM"), none)
    | some (y, m) =>
      let rows := summarize_by_month y m db
      let ym := pyFmtInt 4 y ++ "-" ++ pyFmtInt 2 m
      if rows.isEmpty then (.noData ym, some (y, m)) else (.report ym rows, some (y, m))

/-! ### Strict argument shapes, written from the spec's words
(`YYYY-MM-DD` / `YYYY-MM`), for comparison with what the handlers
actually accept. -/

/-- Modelled from the spec: "a year-month in `YYYY-MM` form" - exactly
four digits, a dash, exactly two digits. -/
def specFormYM (s : String) : Bool :=
  match s.toList with
  | [y1, y2, y3, y4, '-', m1, m2] =>
    isDigitCh y1 && isDigitCh y2 && isDigitCh y3 && isDigitCh y4 &&
      isDigitCh m1 && isDigitCh m2
  | _ => false

/-- Modelled from the spec: "a date in `YYYY-MM-DD` form" - four digits,
dash, two digits, dash, two digits. -/
def specFormYMD (s : String) : Bool :=
  match s.toList with
  | [y1, y2, y3, y4, '-', m1, m2, '-', d1, d2] =>
    isDigitCh y1 && isDigitCh y2 && isDigitCh y3 && isDigitCh y4 &&
      isDigitCh m1 && isDigitCh m2 && isDigitCh d1 && isDigitCh d2
  | _ => false

/-- The invariant carried by every stored row: a closed currency code and
a non-negative amount. -/
def RowInv (r : PaymentRow) : Prop :=
  (r.currency = "USD" ∨ r.currency = "KHR") ∧ 0 ≤ r.amount

/-! ### Helper lemmas -/

theorem matchCurrency_closed (cs : List Char) (cur : String) (rest : List Char)
    (h : matchCurrency cs = some (cur, rest)) : cur = "USD" ∨ cur = "KHR" := by
  unfold matchCurrency at h
  split at h
  · injection h with h2
    exact Or.inl (congrArg Prod.fst h2).symm
  · split at h
    · injection h with h2
      exact Or.inr (congrArg Prod.fst h2).symm
    · exact absurd h (by simp)

theorem matchAmtAt_closed (cs : List Char) (s cur : String)
    (h : matchAmtAt cs = some (s, cur)) : cur = "USD" ∨ cur = "KHR" := by
  unfold matchAmtAt at h
  split at h
  · exact absurd h (by simp)
  · split at h
    · exact absurd h (by simp)
    · split at h
      · exact absurd h (by simp)
      · split at h
        · split at h
          · exact absurd h (by simp)
          · split at h
            · exact absurd h (by simp)
            · rename_i cur' rest' hcur
              injection h with h2
              have h4 : cur' = cur := congrArg Prod.snd h2
              exact h4 ▸ matchCurrency_closed _ _ _ hcur

theorem searchWith_closed {α : Type} (m : List Char → Option α) (P : α → Prop)
    (hm : ∀ cs r, m cs = some r → P r) :
    ∀ cs r, searchWith m cs = some r → P r := by
  intro cs
  induction cs with
  | nil => intro r h; exact absurd h (by simp [searchWith])
  | cons c rest ih =>
    intro r h
    unfold searchWith at h
    cases h1 : m (c :: rest) with
    | some r2 =>
      rw [h1] at h
      injection h with h2
      exact h2 ▸ hm _ _ h1
    | none =>
      rw [h1] at h
      exact ih r h

theorem searchAmt_closed (cs : List Char) (s cur : String)
    (h : searchAmt cs = some (s, cur)) : cur = "USD" ∨ cur = "KHR" := by
  have := searchWith_closed matchAmtAt (fun r => r.2 = "USD" ∨ r.2 = "KHR")
    (fun cs2 r hr => by
      obtain ⟨a, b⟩ := r
      exact matchAmtAt_closed cs2 a b hr) cs (s, cur) h
  exact this

theorem ratOfAmountStr_nonneg (s : String) (q : ℚ)
    (h : ratOfAmountStr s = some q) : 0 ≤ q := by
  unfold ratOfAmountStr at h
  split at h
  · exact absurd h (by simp)
  · split at h
    · injection h with h2
      rw [← h2, Rat.mkRat_eq_div]
      positivity
    · split at h
      · injection h with h2
        rw [← h2, Rat.mkRat_eq_div]
        positivity
      · exact absurd h (by simp)
    · exact absurd h (by simp)

/-- Inversion of a successful parse: the amount and currency necessarily
come from a successful AMT_PATTERN search and numeral conversion. -/
theorem parse_payment_record_inv (text : String) (a : ℚ) (c : String) (dt : DateTime)
    (h : parse_payment text = .record a c dt) :
    ∃ s, searchAmt text.toList = some (s, c) ∧ ratOfAmountStr (stripCommas s) = some a := by
  unfold parse_payment at h
  split at h
  · exact absurd h (by simp)
  · rename_i amountStr currency hamt
    split at h
    · exact absurd h (by simp)
    · rename_i amount hrat
      split at h
      · exact absurd h (by simp)
      · split at h
        · exact absurd h (by simp)
        · injection h with h1 h2 h3
          exact ⟨amountStr, h2 ▸ hamt, h1 ▸ hrat⟩

/-! ### Claims -/

/-- Claim C1: for every input text on which AMT_PATTERN matches (with a
numeral that converts), one of the two date patterns matches, and the
matched date and 12-hour time convert under `%d-%b-%Y %I:%M%p`,
`parse_payment` returns exactly the record whose amount is the matched
numeral with commas removed, whose currency is the matched code and
whose paid_at is the converted date-time.  The two concrete §8 scenario
texts are established in the accompanying witness by applying this
theorem. -/
theorem parse_payment_complete (text amtStr cur dtStr tmStr : String) (q : ℚ) (dt : DateTime)
    (h1 : searchAmt text.toList = some (amtStr, cur))
    (h2 : ratOfAmountStr (stripCommas amtStr) = some q)
    (h3 : searchDT text.toList = some (dtStr, tmStr))
    (h4 : strptimeDMY (dtStr ++ " " ++ tmStr) = some dt) :
    parse_payment text = .record q cur dt := by
  simp only [parse_payment, h1, h2, h3, h4]

/-- Witness for C1: the two concrete §8 payment texts parse to
(26.00, USD, 2025-12-11T15:46) and (801000.0, KHR, 2025-12-11T15:03). -/
theorem parse_payment_complete_witness :
    parse_payment ("Received  26.00 USD from POV TEAB,Wing Bank (Cambodia) Plc by KHQR,on 11-Dec-2025 03:46PM, at SNC shop by SN  (Hash. b818c4e3).")
      = .record 26 ("USD") ⟨2025, 12, 11, 15, 46⟩
    ∧ parse_payment ("Received 801,000 KHR from KIMCHHENG CHHORN,ABA Bank by KHQR,on 11-Dec-2025 03:03PM, at SNC shop by SN  (Hash. adb8a3d1).")
      = .record 801000 ("KHR") ⟨2025, 12, 11, 15, 3⟩ :=
  ⟨parse_payment_complete _ ("26.00") ("USD") ("11-Dec-2025") ("03:46PM") 26 ⟨2025, 12, 11, 15, 46⟩
      (by decide) (by decide) (by decide) (by decide),
   parse_payment_complete _ ("801,000") ("KHR") ("11-Dec-2025") ("03:03PM") 801000 ⟨2025, 12, 11, 15, 3⟩
      (by decide) (by decide) (by decide) (by decide)⟩

/-- Claim C2 (code bug): a matching amount with no matching date, or with
a date that fails `strptime`, is rejected with no record - except that a
matched numeral consisting only of commas makes `float("")` raise an
uncaught `ValueError` before the date is even examined, so on such input
`parse_payment` crashes instead of returning the rejection the claim
(and the spec's silent-rejection design) promises. -/
theorem parse_payment_date_failure_outcomes :
    parse_payment ("Received 5 USD from nobody") = .rejected
    ∧ parse_payment ("Received 5 USD on 32-Jan-2025 10:00AM") = .rejected
    ∧ searchAmt ("Received ,, KHR").toList = some (",,", "KHR")
    ∧ searchDT ("Received ,, KHR").toList = none
    ∧ parse_payment ("Received ,, KHR") = .error := by
  refine ⟨by decide, by decide, by decide, by decide, by decide⟩

/-- Claim C3: when both date patterns find a match, `parse_payment` uses
the one found by the `on`-keyword pattern; the comma pattern is consulted
only when the keyword pattern finds nothing.  The concrete text below is
matched by both patterns at different dates and parses to the keyword
pattern's date. -/
theorem dt_priority :
    (∀ cs p, searchDT1 cs = some p → searchDT cs = some p)
    ∧ (∀ cs, searchDT1 cs = none → searchDT cs = searchDT2 cs)
    ∧ searchDT2 ("Received 5 USD ,09-Jan-2024 01:00AM on 11-Dec-2025 03:46PM").toList
        = some ("09-Jan-2024", "01:00AM")
    ∧ parse_payment ("Received 5 USD ,09-Jan-2024 01:00AM on 11-Dec-2025 03:46PM")
        = .record 5 ("USD") ⟨2025, 12, 11, 15, 46⟩ := by
  refine ⟨?_, ?_, by decide, by decide⟩
  · intro cs p h
    unfold searchDT
    rw [h]
  · intro cs h
    unfold searchDT
    rw [h]

/-- Witness for C3: a text matched by the keyword pattern resolves
through the combined search to the keyword pattern's groups. -/
theorem dt_priority_witness :
    searchDT ("on 01-Jan-2024 1:00AM").toList = some ("01-Jan-2024", "1:00AM") :=
  dt_priority.1 _ ("01-Jan-2024", "1:00AM") (by decide)

/-- Claim C4 (code bug): `parse_payment` is claimed to return a record or
a silent rejection on every input, but on a text whose matched numeral is
all commas (`[\d,]+` allows them) the uncaught `ValueError` from
`float("")` escapes: the amount pattern matches, yet the outcome is an
exception, not a rejection. -/
theorem parse_payment_uncaught_error :
    searchAmt ("Received , USD").toList = some (",", "USD")
    ∧ parse_payment ("Received , USD") = .error := by
  refine ⟨by decide, by decide⟩

/-- Claim C5: the by-date query selects exactly the stored records whose
paid_at has date component equal to the queried day, ignoring the time of
day, and aggregates precisely that selection. -/
theorem summarize_by_date_selects :
    (∀ (day : Date) (db : List PaymentRow) (r : PaymentRow),
      r ∈ selectByDate day db ↔ r ∈ db ∧ dateOf r.paidAt = day)
    ∧ (∀ (day : Date) (db : List PaymentRow),
      summarize_by_date day db = aggregateRows (selectByDate day db)) := by
  constructor
  · intro day db r
    simp [selectByDate, List.mem_filter]
  · intro day db
    rfl

/-- Witness for C5: a record at 15:46 of the queried day is selected by
the query for that day. -/
theorem summarize_by_date_selects_witness :
    (⟨1, 2, 5, "USD", ⟨2025, 12, 11, 15, 46⟩, "t"⟩ : PaymentRow) ∈
      selectByDate ⟨2025, 12, 11⟩ [⟨1, 2, 5, "USD", ⟨2025, 12, 11, 15, 46⟩, "t"⟩] :=
  (summarize_by_date_selects.1 ⟨2025, 12, 11⟩ _ _).mpr ⟨by decide, by decide⟩

section
attribute [local semireducible] Rat.add

/-- Claim C6: the per-currency aggregation yields exactly one
(count, sum) row for each currency occurring in the selected subset -
membership is characterised, the output currencies are pairwise distinct,
currencies with no record yield no row, the empty subset yields the empty
result - and on the concrete subset with currencies A: [10, 20] and
B: [5] it yields A: (2, 30) and B: (1, 5). -/
theorem aggregate_characterization :
    (∀ (recs : List PaymentRow) (c : String) (n : Nat) (s : ℚ),
      (c, n, s) ∈ aggregateRows recs ↔
        ((∃ r ∈ recs, r.currency = c)
          ∧ n = (recs.filter (fun r => r.currency = c)).length
          ∧ s = ((recs.filter (fun r => r.currency = c)).map (fun r => r.amount)).sum))
    ∧ (∀ recs : List PaymentRow, ((aggregateRows recs).map Prod.fst).Nodup)
    ∧ aggregateRows [] = []
    ∧ aggregateRows
        [⟨0, 0, 10, "A", ⟨2025, 1, 1, 0, 0⟩, ""⟩, ⟨0, 0, 20, "A", ⟨2025, 1, 1, 0, 0⟩, ""⟩,
          ⟨0, 0, 5, "B", ⟨2025, 1, 1, 0, 0⟩, ""⟩]
        = [("A", 2, 30), ("B", 1, 5)] := by
  refine ⟨?_, ?_, rfl, by decide⟩
  · intro recs c n s
    constructor
    · intro h
      unfold aggregateRows at h
      rw [List.mem_map] at h
      obtain ⟨c', hc', heq⟩ := h
      have hc : c' = c := congrArg Prod.fst heq
      subst hc
      have hn : (recs.filter (fun r => r.currency = c')).length = n :=
        congrArg (fun p => p.2.1) heq
      have hs : ((recs.filter (fun r => r.currency = c')).map (fun r => r.amount)).sum = s :=
        congrArg (fun p => p.2.2) heq
      rw [List.mem_dedup, List.mem_map] at hc'
      obtain ⟨r, hr, hrc⟩ := hc'
      exact ⟨⟨r, hr, hrc⟩, hn.symm, hs.symm⟩
    · rintro ⟨⟨r, hr, hrc⟩, hn, hs⟩
      unfold aggregateRows
      rw [List.mem_map]
      refine ⟨c, ?_, ?_⟩
      · rw [List.mem_dedup, List.mem_map]
        exact ⟨r, hr, hrc⟩
      · rw [hn, hs]
  · intro recs
    have h : (aggregateRows recs).map Prod.fst = (recs.map (fun r => r.currency)).dedup := by
      unfold aggregateRows
      rw [List.map_map]
      exact List.map_id _
    rw [h]
    exact List.nodup_dedup _

/-- Witness for C6: the singleton subset with one USD record of amount 5
contains the row (USD, 1, 5) in its aggregation. -/
theorem aggregate_characterization_witness :
    ("USD", 1, (5 : ℚ)) ∈ aggregateRows [⟨1, 2, 5, "USD", ⟨2025, 12, 11, 15, 46⟩, "t"⟩] :=
  (aggregate_characterization.1 _ ("USD") 1 5).mpr
    ⟨⟨⟨1, 2, 5, "USD", ⟨2025, 12, 11, 15, 46⟩, "t"⟩, List.mem_cons_self _ _, rfl⟩,
      by decide, by decide⟩

end

/-- Claim C7: after an admin-invoked resetdb (which deletes every
payment row), every by-date query and every by-month query returns no
records, for every date and every year-month argument. -/
theorem resetdb_then_queries_empty (u : Int) (db : List PaymentRow) (day : Date)
    (y m : Int) (h : u ∈ ADMIN_IDS) :
    summarize_by_date day (cmd_resetdb (some u) db) = []
      ∧ summarize_by_month y m (cmd_resetdb (some u) db) = [] := by
  have hdb : cmd_resetdb (some u) db = [] := by
    simp [cmd_resetdb, h]
  rw [hdb]
  exact ⟨rfl, rfl⟩

/-- Witness for C7: the configured admin clears a one-record store and
both queries come back empty. -/
theorem resetdb_then_queries_empty_witness :
    summarize_by_date ⟨2025, 12, 11⟩
        (cmd_resetdb (some 123456789) [⟨1, 2, 5, "USD", ⟨2025, 12, 11, 15, 46⟩, "t"⟩]) = []
      ∧ summarize_by_month 2025 12
        (cmd_resetdb (some 123456789) [⟨1, 2, 5, "USD", ⟨2025, 12, 11, 15, 46⟩, "t"⟩]) = [] :=
  resetdb_then_queries_empty 123456789 _ ⟨2025, 12, 11⟩ 2025 12 (by decide)

/-- Counterexample to claim C8 as stated: the month argument `25-12` is
not in `YYYY-MM` form and the day argument `2025-1-1` is not in
`YYYY-MM-DD` form, yet neither is answered with a usage message - both
are accepted and a query is executed (the recorded query argument is
`some _`, not `none`). -/
theorem malformed_arg_counterexample :
    specFormYM ("25-12") = false
    ∧ cmd_month ["25-12"] ⟨2025, 1, 1⟩ [] = (.noData ("0025-12"), some (25, 12))
    ∧ specFormYMD ("2025-1-1") = false
    ∧ cmd_day ["2025-1-1"] [] = (.noData ("2025-01-01"), some ⟨2025, 1, 1⟩) := by
  refine ⟨by decide, by decide, by decide, by decide⟩

/-- Claim C8 as amended: a day argument that fails
`strptime(_, "%Y-%m-%d")` and a month argument that does not split on a
dash into exactly two Python-int-parsable parts are answered with a
user-visible usage/format message and execute no query; arguments
passing those looser checks run a query even when they are not in strict
`YYYY-MM-DD` / `YYYY-MM` form. -/
theorem malformed_arg_amended :
    (∀ (a : String) (rest : List String) (db : List PaymentRow),
      pyStrptimeYMD a = none →
        cmd_day (a :: rest) db = (.usage ("Invalid date format. Use YYYY-MM-DD."), none))
    ∧ (∀ (a : String) (rest : List String) (today : Date) (db : List PaymentRow),
      pyParseYM a = none →
        cmd_month (a :: rest) today db = (.usage ("Usage: /month or /month YYYY-MM"), none)) := by
  constructor
  · intro a rest db h
    simp only [cmd_day, h]
  · intro a rest today db h
    simp only [cmd_month, h]

/-- Witness for the amended C8: a non-date argument draws the format
message from the day handler and the usage message from the month
handler, with no query in either case. -/
theorem malformed_arg_amended_witness :
    cmd_day ["abc"] [] = (.usage ("Invalid date format. Use YYYY-MM-DD."), none)
    ∧ cmd_month ["abc"] ⟨2025, 1, 1⟩ [] = (.usage ("Usage: /month or /month YYYY-MM"), none) :=
  ⟨malformed_arg_amended.1 ("abc") [] [] (by decide),
   malformed_arg_amended.2 ("abc") [] ⟨2025, 1, 1⟩ [] (by decide)⟩

/-- Counterexample to claim C9 as stated: the day-query trigger invoked
with no argument does not execute a query against the current date - it
sends the usage message and runs no query at all. -/
theorem day_noarg_counterexample :
    cmd_day [] [] = (.usage ("Usage: /day YYYY-MM-DD"), none) := by
  decide

/-- Claim C9 as amended: with no argument the month-query defaults to
the current calendar year and month; the current-date day summary is the
separate zero-argument today trigger, which always queries the current
date; the day-query trigger with no argument is rejected with a usage
message and executes no query. -/
theorem default_period_amended :
    (∀ (today : Date) (db : List PaymentRow),
      (cmd_month [] today db).2 = some ((today.year : Int), (today.month : Int)))
    ∧ (∀ (today : Date) (db : List PaymentRow), (cmd_today today db).2 = some today)
    ∧ (∀ db : List PaymentRow, cmd_day [] db = (.usage ("Usage: /day YYYY-MM-DD"), none)) := by
  refine ⟨?_, ?_, fun db => rfl⟩
  · intro today db
    unfold cmd_month
    by_cases h : (summarize_by_month today.year today.month db).isEmpty <;> simp [h]
  · intro today db
    unfold cmd_today
    by_cases h : (summarize_by_date today db).isEmpty <;> simp [h]

/-- Witness for the amended C9: on 2025-12-11 the no-argument month
query runs for 2025-12, the today query runs for 2025-12-11, and the
no-argument day query runs nothing. -/
theorem default_period_amended_witness :
    (cmd_month [] ⟨2025, 12, 11⟩ []).2 = some (2025, 12)
    ∧ (cmd_today ⟨2025, 12, 11⟩ []).2 = some ⟨2025, 12, 11⟩
    ∧ cmd_day [] [] = (.usage ("Usage: /day YYYY-MM-DD"), none) :=
  ⟨default_period_amended.1 ⟨2025, 12, 11⟩ [], default_period_amended.2.1 ⟨2025, 12, 11⟩ [],
   default_period_amended.2.2 []⟩

/-- Claim C10: every successful parse yields a currency in the closed
set of the two codes and a non-negative amount; hence the
ingestion handler only ever appends rows satisfying this invariant, and
the reset operation preserves it as well. -/
theorem stored_invariant :
    (∀ (text : String) (a : ℚ) (c : String) (dt : DateTime),
      parse_payment text = .record a c dt → (c = "USD" ∨ c = "KHR") ∧ 0 ≤ a)
    ∧ (∀ (chatId msgId : Int) (text : Option String) (db : List PaymentRow),
      (∀ r ∈ db, RowInv r) → ∀ r ∈ payment_message chatId msgId text db, RowInv r)
    ∧ (∀ (u : Option Int) (db : List PaymentRow),
      (∀ r ∈ db, RowInv r) → ∀ r ∈ cmd_resetdb u db, RowInv r) := by
  have hrec : ∀ (text : String) (a : ℚ) (c : String) (dt : DateTime),
      parse_payment text = .record a c dt → (c = "USD" ∨ c = "KHR") ∧ 0 ≤ a := by
    intro text a c dt h
    obtain ⟨s, hs, hq⟩ := parse_payment_record_inv text a c dt h
    exact ⟨searchAmt_closed _ _ _ hs, ratOfAmountStr_nonneg _ _ hq⟩
  refine ⟨hrec, ?_, ?_⟩
  · intro chatId msgId text db hdb r hr
    unfold payment_message at hr
    split at hr
    · exact hdb r hr
    · dsimp only at hr
      split at hr
      · rename_i a c dt hp
        unfold save_payment at hr
        rw [List.mem_append] at hr
        cases hr with
        | inl hr => exact hdb r hr
        | inr hr =>
          rw [List.mem_singleton] at hr
          subst hr
          exact hrec _ _ _ _ hp
      · exact hdb r hr
      · exact hdb r hr
  · intro u db hdb r hr
    unfold cmd_resetdb at hr
    split at hr
    · exact hdb r hr
    · split at hr
      · exact absurd hr (by simp)
      · exact hdb r hr

/-- Witness for C10: the record parsed from a concrete valid payment
text carries the USD code and a non-negative amount. -/
theorem stored_invariant_witness :
    ("USD" = "USD" ∨ "USD" = "KHR") ∧ (0 : ℚ) ≤ 5 :=
  stored_invariant.1 ("Received 5 USD on 01-Jan-2024 1:00AM") 5 ("USD") ⟨2024, 1, 1, 1, 0⟩
    (by decide)

end QRBot






